import Mathlib

/-!
Verification of the session-linking slice of the SalvageUnion Discord bot.

The embedding covers:
* `src/core/sessionStore.ts` — the in-memory `Map` from Discord user id to
  `SessionData`, with its `setSession` / `getSession` / `deleteSession`
  operations (lazy expiry on read).  The module-global `Map` is embedded by
  explicit state passing over an association list with unique keys, the
  semantics of a JS `Map`.
* the OAuth callback handler (`api` route, `export default async (req, res)`)
  — embedded as a pure function of the inbound query parameters, the outcome
  of `supabase.auth.exchangeCodeForSession`, and the store.
* the `/login` command handler — embedded as a function of the outcome of
  `supabase.auth.signInWithOAuth` and the store.
* `src/core/supabase.ts` (`createUserClient`, `getSupabaseForUser`) — the
  scoped client factory.

Query-string values that may be `undefined` are embedded as `Option String`;
JavaScript truthiness of such a value (`if (oauthError)`, `!code`,
`!discordUserId`, `!data.url`) holds exactly when the value is present and
non-empty, embedded by `truthy`.
-/

/-- The `SessionData` interface of `sessionStore.ts`: access token, refresh
token, absolute expiry in milliseconds, and the Supabase user UUID. -/
structure SessionData where
  accessToken : String
  refreshToken : String
  expiresAt : Nat
  userId : String
deriving Repr, DecidableEq

/-- The backing `Map<string, SessionData>` (`const sessions = new Map()`),
embedded as an association list. -/
abbrev Store := List (String × SessionData)

/-- `Map.prototype.get`: the value at the first (in a JS `Map`: the only)
entry with the given key. -/
def mapGet (m : Store) (k : String) : Option SessionData :=
  match m with
  | [] => none
  | p :: rest => if p.1 == k then some p.2 else mapGet rest k

/-- `Map.prototype.set`: replace the value at an existing key in place,
otherwise append a fresh entry. -/
def mapSet (m : Store) (k : String) (v : SessionData) : Store :=
  match m with
  | [] => [(k, v)]
  | p :: rest => if p.1 == k then (k, v) :: rest else p :: mapSet rest k v

/-- `Map.prototype.delete`: remove the entry with the given key (no error if
absent). -/
def mapDelete (m : Store) (k : String) : Store :=
  m.filter (fun p => !(p.1 == k))

/-- Number of entries of the store holding the given key (in any run of the
real program this is 0 or 1, since a JS `Map` keeps keys unique). -/
def countKey (m : Store) (k : String) : Nat :=
  (m.filter (fun p => p.1 == k)).length

/-- Key-uniqueness invariant of a JS `Map`. -/
def goodStore (m : Store) : Prop :=
  (m.map Prod.fst).Nodup

/-- `setSession` from `sessionStore.ts`: `sessions.set(discordUserId, session)`. -/
def setSession (m : Store) (discordUserId : String) (session : SessionData) : Store :=
  mapSet m discordUserId session

/-- `getSession` from `sessionStore.ts`: look the key up; absent gives `null`;
if `Date.now() > session.expiresAt` delete the entry and give `null`;
otherwise give the session.  `Date.now()` is the explicit `now` argument, the
mutated global map is the second component of the result. -/
def getSession (now : Nat) (m : Store) (discordUserId : String) :
    Option SessionData × Store :=
  match mapGet m discordUserId with
  | none => (none, m)
  | some session =>
    if now > session.expiresAt then (none, mapDelete m discordUserId)
    else (some session, m)

/-- `deleteSession` from `sessionStore.ts`: `sessions.delete(discordUserId)`. -/
def deleteSession (m : Store) (discordUserId : String) : Store :=
  mapDelete m discordUserId

/-- JavaScript truthiness of a possibly-undefined query-string value: present
and non-empty. -/
def truthy (o : Option String) : Bool :=
  match o with
  | none => false
  | some s => !s.isEmpty

/-- The query parameters of the callback request
(`const \x7b code, state, error: oauthError \x7d = req.query || \x7b\x7d`). -/
structure CallbackRequest where
  code : Option String
  state : Option String
  error : Option String
deriving Repr, DecidableEq

/-- The fields of the Supabase session object the handler reads
(`data.session.access_token`, `.refresh_token`, `.expires_at` — an absolute
POSIX timestamp in seconds — plus the relative `expires_in` in seconds, which
the session carries but the handler never reads). -/
structure SupabaseSession where
  access_token : String
  refresh_token : String
  expires_in : Nat
  expires_at : Nat
deriving Repr, DecidableEq

/-- Outcome of `await supabase.auth.exchangeCodeForSession(code)` as the
handler observes it: an error object with a message, a response with no
session, a session together with `data.user.id`, or a thrown exception
(caught by the handler's `try/catch`). -/
inductive ExchangeResult where
  | exErr (message : String)
  | noSession
  | ok (session : SupabaseSession) (userId : String)
  | thrown
deriving Repr, DecidableEq

/-- The response the handler sends: `res.status(c).send(body)` or
`res.redirect(url)` (an Express redirect defaults to status 302). -/
inductive Response where
  | status (httpCode : Nat) (body : String)
  | redirect (url : String)
deriving Repr, DecidableEq

/-- The fixed success destination of the callback handler. -/
def successUrl : String := "https://salvageunion.io/auth/success"

/-- The Credential Bundle the handler constructs on a successful exchange:
note `expiresAt := session.expires_at * 1000` — the provider's absolute
`expires_at` (seconds) converted to milliseconds. -/
def bundleOf (session : SupabaseSession) (userId : String) : SessionData :=
  { accessToken := session.access_token
    refreshToken := session.refresh_token
    expiresAt := session.expires_at * 1000
    userId := userId }

/-- The OAuth callback handler (`export default async (req, res)` of the api
route).  Checks, in order: `oauthError` truthy, `!code`, `!discordUserId`
(where `discordUserId = state`); then branches on the exchange outcome.
The store is passed and returned explicitly; the response is the first
component. -/
def oauthCallback (req : CallbackRequest) (exchange : ExchangeResult)
    (store : Store) : Response × Store :=
  if truthy req.error then
    (Response.status 400 ("OAuth error: " ++ req.error.getD ""), store)
  else if !(truthy req.code) then
    (Response.status 400 "Missing authorization code", store)
  else if !(truthy req.state) then
    (Response.status 400 "Missing state parameter (Discord user ID)", store)
  else
    match exchange with
    | ExchangeResult.exErr message =>
        (Response.status 400 ("Failed to exchange code: " ++ message), store)
    | ExchangeResult.noSession =>
        (Response.status 400 "No session returned from authentication", store)
    | ExchangeResult.ok session userId =>
        (Response.redirect successUrl,
          setSession store (req.state.getD "") (bundleOf session userId))
    | ExchangeResult.thrown =>
        (Response.status 500 "Internal server error", store)

/-- Follows the spec's words, for comparison only: the "expected identity
shape" the spec says the returned `state` is revalidated against — a Discord
user ID, i.e. a non-empty numeric snowflake string.  The source contains no
such check. -/
def specDiscordIdShape (s : String) : Bool :=
  !s.isEmpty && s.data.all Char.isDigit

/-- Outcome of `await supabase.auth.signInWithOAuth(...)` as the login
command observes it: an error flag and a possibly-absent URL. -/
structure SignInResult where
  hasError : Bool
  url : Option String
deriving Repr, DecidableEq

/-- The reply the login command sends: the red "Login Error" embed, or the
blue "Link Your Account" embed carrying the authorization URL. -/
inductive LoginReply where
  | failureEmbed
  | linkEmbed (url : String)
deriving Repr, DecidableEq

/-- The `/login` command handler: on `error || !data.url` reply with the
generic failure embed, otherwise reply with the link embed.  The session
store is passed through explicitly: the handler never imports nor touches
`sessionStore`. -/
def loginCommand (res : SignInResult) (store : Store) : LoginReply × Store :=
  if res.hasError || !(truthy res.url) then
    (LoginReply.failureEmbed, store)
  else
    (LoginReply.linkEmbed (res.url.getD ""), store)

/-- The part of a Supabase client relevant here: the global `Authorization`
header it is constructed with. -/
structure UserClient where
  authorizationHeader : String
deriving Repr, DecidableEq

/-- `createUserClient` from `supabase.ts`: a fresh client whose global
headers carry `Authorization: Bearer <accessToken>`. -/
def createUserClient (accessToken : String) : UserClient :=
  { authorizationHeader := "Bearer " ++ accessToken }

/-- `getSupabaseForUser` from `supabase.ts`: look the Discord user's session
up (lazy-expiring read); `null` when absent, otherwise a fresh client built
from the bundle's access token. -/
def getSupabaseForUser (now : Nat) (store : Store) (discordUserId : String) :
    Option UserClient × Store :=
  let r := getSession now store discordUserId
  match r.1 with
  | none => (none, r.2)
  | some session => (some (createUserClient session.accessToken), r.2)

/-- Sample bundle used in concrete instantiations (expiry 1000 ms). -/
def sampleBundle : SessionData :=
  { accessToken := "t1", refreshToken := "r1", expiresAt := 1000, userId := "u-9" }

/-- Second sample bundle used in concrete instantiations (expiry 2000 ms). -/
def sampleBundle2 : SessionData :=
  { accessToken := "t2", refreshToken := "r2", expiresAt := 2000, userId := "u-9" }

/-- Sample provider session used in concrete instantiations. -/
def sampleSession : SupabaseSession :=
  { access_token := "t1", refresh_token := "r1",
    expires_in := 3600, expires_at := 1700003600 }

/-! ### Store lemmas -/

theorem mapGet_mapSet_self (m : Store) (k : String) (v : SessionData) :
    mapGet (mapSet m k v) k = some v := by
  induction m with
  | nil => simp [mapGet, mapSet]
  | cons p rest ih =>
    by_cases h : p.1 = k
    · simp [mapGet, mapSet, h]
    · simp [mapGet, mapSet, h, ih]

theorem mapGet_mapSet_ne (m : Store) (k j : String) (v : SessionData)
    (hjk : j ≠ k) : mapGet (mapSet m k v) j = mapGet m j := by
  have hkj : ¬ k = j := fun h => hjk h.symm
  induction m with
  | nil => simp [mapGet, mapSet, hkj]
  | cons p rest ih =>
    by_cases h : p.1 = k
    · simp [mapGet, mapSet, h, hkj]
    · simp [mapGet, mapSet, h, ih]

theorem mapGet_mapDelete_self (m : Store) (k : String) :
    mapGet (mapDelete m k) k = none := by
  induction m with
  | nil => simp [mapGet, mapDelete]
  | cons p rest ih =>
    by_cases h : p.1 = k
    · simpa [mapDelete, List.filter_cons, h] using ih
    · simpa [mapDelete, List.filter_cons, mapGet, h] using ih

theorem mapGet_mapDelete_ne (m : Store) (k j : String) (hjk : j ≠ k) :
    mapGet (mapDelete m k) j = mapGet m j := by
  have hkj : ¬ k = j := fun h => hjk h.symm
  induction m with
  | nil => simp [mapGet, mapDelete]
  | cons p rest ih =>
    simp only [mapDelete] at ih
    by_cases h : p.1 = k
    · simp [mapDelete, List.filter_cons, mapGet, h, hkj, ih]
    · simp [mapDelete, List.filter_cons, mapGet, h, ih]

theorem countKey_eq_zero_of_not_mem (m : Store) (k : String)
    (h : k ∉ m.map Prod.fst) : countKey m k = 0 := by
  induction m with
  | nil => rfl
  | cons p rest ih =>
    simp only [List.map_cons, List.mem_cons, not_or] at h
    have hpk : ¬ p.1 = k := fun hc => h.1 hc.symm
    simpa [countKey, List.filter_cons, hpk] using ih h.2

theorem countKey_mapSet_self (m : Store) (k : String) (v : SessionData)
    (hnd : goodStore m) : countKey (mapSet m k v) k = 1 := by
  induction m with
  | nil => simp [mapSet, countKey, List.filter_cons]
  | cons p rest ih =>
    simp only [goodStore, List.map_cons, List.nodup_cons] at hnd
    by_cases h : p.1 = k
    · subst h
      have h0 : countKey rest p.1 = 0 :=
        countKey_eq_zero_of_not_mem rest p.1 hnd.1
      simpa [mapSet, countKey, List.filter_cons] using h0
    · have h1 := ih hnd.2
      simpa [mapSet, countKey, List.filter_cons, h] using h1

theorem mem_keys_mapSet (m : Store) (k j : String) (v : SessionData)
    (h : j ∈ (mapSet m k v).map Prod.fst) : j ∈ m.map Prod.fst ∨ j = k := by
  induction m with
  | nil => simpa [mapSet] using h
  | cons p rest ih =>
    by_cases hpk : p.1 = k
    · simp only [mapSet, hpk, beq_self_eq_true, if_true, List.map_cons,
        List.mem_cons] at h
      rcases h with h | h
      · exact Or.inr h
      · exact Or.inl (by simp [h])
    · simp only [mapSet, hpk, beq_iff_eq, if_false, List.map_cons,
        List.mem_cons] at h
      rcases h with h | h
      · exact Or.inl (by simp [h])
      · rcases ih h with h2 | h2
        · exact Or.inl (by simp [h2])
        · exact Or.inr h2

theorem goodStore_mapSet (m : Store) (k : String) (v : SessionData)
    (hnd : goodStore m) : goodStore (mapSet m k v) := by
  induction m with
  | nil => simp [goodStore, mapSet]
  | cons p rest ih =>
    simp only [goodStore, List.map_cons, List.nodup_cons] at hnd
    by_cases hpk : p.1 = k
    · subst hpk
      simpa [goodStore, mapSet] using hnd
    · have hrest := ih hnd.2
      simp only [goodStore, mapSet, hpk, beq_iff_eq, if_false, List.map_cons,
        List.nodup_cons]
      refine ⟨fun hc => ?_, hrest⟩
      rcases mem_keys_mapSet rest k p.1 v hc with h2 | h2
      · exact hnd.1 h2
      · exact hpk h2

/-! ### Claim theorems -/

/-- C1, counterexample: the claim says the stored expiry equals
`now + providerExpiresInSeconds * 1000`.  On a successful exchange whose
session reports `expires_in = 3600` but `expires_at = 5`, the handler stores
expiry `5 * 1000 = 5000`, which is not `now + 3600 * 1000` (shown here at the
concrete current time 1700000000000; since `now + 3600000 ≥ 3600000 > 5000`,
no current time makes them equal).  The handler never reads the clock nor
`expires_in`: it stores `expires_at * 1000`. -/
theorem C1_counterexample :
    (mapGet (oauthCallback
        { code := some "abc", state := some "discordUser123", error := none }
        (ExchangeResult.ok
          { access_token := "t1", refresh_token := "r1",
            expires_in := 3600, expires_at := 5 } "u-9") []).2
        "discordUser123").map SessionData.expiresAt = some 5000
    ∧ (5000 : Nat) ≠ 1700000000000 + 3600 * 1000 := by
  exact ⟨by decide, by decide⟩

/-- C1, amended: on a successful code exchange the Callback Receiver stores,
keyed by the `state` value, a Credential Bundle whose expiry is the provider
session's absolute `expires_at` timestamp (POSIX seconds) multiplied by 1000
— not a value computed from the current time and `expiresIn` — together with
the access token, refresh token and backend subject id, and responds with the
redirect to the fixed success URL. -/
theorem C1_amended (req : CallbackRequest) (sess : SupabaseSession)
    (uid : String) (store : Store)
    (herr : truthy req.error = false) (hcode : truthy req.code = true)
    (hstate : truthy req.state = true) :
    oauthCallback req (ExchangeResult.ok sess uid) store =
      (Response.redirect successUrl,
        setSession store (req.state.getD "")
          { accessToken := sess.access_token
            refreshToken := sess.refresh_token
            expiresAt := sess.expires_at * 1000
            userId := uid }) := by
  simp [oauthCallback, herr, hcode, hstate, bundleOf]

/-- Witness instantiating `C1_amended` on Scenario A's request. -/
theorem C1_amended_witness :
    oauthCallback { code := some "abc", state := some "discordUser123", error := none }
      (ExchangeResult.ok sampleSession "u-9") [] =
      (Response.redirect successUrl,
        setSession [] "discordUser123"
          { accessToken := "t1", refreshToken := "r1",
            expiresAt := 1700003600 * 1000, userId := "u-9" }) :=
  C1_amended { code := some "abc", state := some "discordUser123", error := none }
    sampleSession "u-9" [] (by decide) (by decide) (by decide)

/-- C2, counterexample: the claim says `state` is revalidated to be non-empty
AND of the expected Discord-user-ID shape before use.  The string
`"not-a-discord-id"` is non-empty but not of that shape, yet the handler
accepts it: the callback succeeds (redirect) and the store is written keyed
by that very value. -/
theorem C2_counterexample :
    specDiscordIdShape "not-a-discord-id" = false
    ∧ truthy (some "not-a-discord-id") = true
    ∧ oauthCallback
        { code := some "abc", state := some "not-a-discord-id", error := none }
        (ExchangeResult.ok sampleSession "u-9") []
      = (Response.redirect successUrl,
          [("not-a-discord-id",
            { accessToken := "t1", refreshToken := "r1",
              expiresAt := 1700003600000, userId := "u-9" })]) := by
  exact ⟨by decide, by decide, by decide⟩

/-- C2, amended: before the returned `state` is used as the session-store
key, the Callback Receiver validates only that it is non-empty (JavaScript
falsiness check); an empty or missing `state` is rejected with the 400
missing-state response and no store write, while any non-empty `state` —
whatever its shape — is accepted and used as the key. -/
theorem C2_amended (req : CallbackRequest) (ex : ExchangeResult) (store : Store)
    (herr : truthy req.error = false) (hcode : truthy req.code = true) :
    (truthy req.state = false →
      oauthCallback req ex store
        = (Response.status 400 "Missing state parameter (Discord user ID)", store))
    ∧ (∀ sess uid, truthy req.state = true →
      (oauthCallback req (ExchangeResult.ok sess uid) store).2
        = setSession store (req.state.getD "")
            { accessToken := sess.access_token
              refreshToken := sess.refresh_token
              expiresAt := sess.expires_at * 1000
              userId := uid }) := by
  constructor
  · intro hstate
    simp [oauthCallback, herr, hcode, hstate]
  · intro sess uid hstate
    simp [oauthCallback, herr, hcode, hstate, bundleOf]

/-- Witness instantiating `C2_amended` on a request with no `state`. -/
theorem C2_amended_witness :
    oauthCallback { code := some "abc", state := none, error := none }
      ExchangeResult.thrown []
      = (Response.status 400 "Missing state parameter (Discord user ID)", []) :=
  (C2_amended { code := some "abc", state := none, error := none }
    ExchangeResult.thrown [] (by decide) (by decide)).1 (by decide)

/-- C3: `getSession` returns absent when no entry exists; when the entry is
present and `now` is strictly past its expiry it evicts the entry and returns
absent, and every later `getSession` on the resulting store again returns
absent with the store unchanged (eviction is permanent); when the entry is
present and not yet strictly past expiry it returns the bundle unchanged,
leaving the store as it was. -/
theorem C3_getSession_lazy_expiry (m : Store) (i : String) (b : SessionData)
    (now later : Nat) :
    (mapGet m i = none → getSession now m i = (none, m))
    ∧ (mapGet m i = some b → now > b.expiresAt →
      (getSession now m i).1 = none
      ∧ getSession later (getSession now m i).2 i
          = (none, (getSession now m i).2))
    ∧ (mapGet m i = some b → ¬ now > b.expiresAt →
      getSession now m i = (some b, m)) := by
  refine ⟨?_, ?_, ?_⟩
  · intro h
    simp [getSession, h]
  · intro h hexp
    have h2 : (getSession now m i).2 = mapDelete m i := by
      simp [getSession, h, hexp]
    refine ⟨by simp [getSession, h, hexp], ?_⟩
    rw [h2]
    simp [getSession, mapGet_mapDelete_self]
  · intro h hexp
    simp [getSession, h, hexp]

/-- Witness instantiating the eviction branch of `C3_getSession_lazy_expiry`:
a bundle expiring at 1000 read at 2000 is gone, and a follow-up read at 3000
still finds nothing and changes nothing. -/
theorem C3_witness :
    (getSession 2000 [("u1", sampleBundle)] "u1").1 = none
    ∧ getSession 3000 (getSession 2000 [("u1", sampleBundle)] "u1").2 "u1"
        = (none, (getSession 2000 [("u1", sampleBundle)] "u1").2) :=
  (C3_getSession_lazy_expiry [("u1", sampleBundle)] "u1" sampleBundle
    2000 3000).2.1 (by decide) (by decide)

/-- C4: the Callback Receiver writes the Session Store exactly once when it
responds with a redirect (`setSession` keyed by `state`, performed on the
successful-exchange branch only), and leaves the store unchanged whenever it
responds with any status response — i.e. on every failure path. -/
theorem C4_write_discipline (req : CallbackRequest) (ex : ExchangeResult)
    (store : Store) :
    ((∃ url, (oauthCallback req ex store).1 = Response.redirect url) →
      ∃ sess uid, ex = ExchangeResult.ok sess uid
        ∧ (oauthCallback req ex store).2
            = setSession store (req.state.getD "") (bundleOf sess uid))
    ∧ (∀ c body, (oauthCallback req ex store).1 = Response.status c body →
      (oauthCallback req ex store).2 = store) := by
  constructor
  · rintro ⟨url, h⟩
    cases herr : truthy req.error with
    | true => simp [oauthCallback, herr] at h
    | false =>
      cases hcode : truthy req.code with
      | false => simp [oauthCallback, herr, hcode] at h
      | true =>
        cases hstate : truthy req.state with
        | false => simp [oauthCallback, herr, hcode, hstate] at h
        | true =>
          cases ex with
          | exErr msg => simp [oauthCallback, herr, hcode, hstate] at h
          | noSession => simp [oauthCallback, herr, hcode, hstate] at h
          | ok sess uid =>
            exact ⟨sess, uid, rfl, by simp [oauthCallback, herr, hcode, hstate]⟩
          | thrown => simp [oauthCallback, herr, hcode, hstate] at h
  · intro c body h
    cases herr : truthy req.error with
    | true => simp [oauthCallback, herr]
    | false =>
      cases hcode : truthy req.code with
      | false => simp [oauthCallback, herr, hcode]
      | true =>
        cases hstate : truthy req.state with
        | false => simp [oauthCallback, herr, hcode, hstate]
        | true =>
          cases ex with
          | exErr msg => simp [oauthCallback, herr, hcode, hstate]
          | noSession => simp [oauthCallback, herr, hcode, hstate]
          | ok sess uid => simp [oauthCallback, herr, hcode, hstate] at h
          | thrown => simp [oauthCallback, herr, hcode, hstate]

/-- Witness instantiating `C4_write_discipline` on Scenario C (no `code`):
the store is untouched. -/
theorem C4_witness :
    (oauthCallback { code := none, state := some "u1", error := none }
      ExchangeResult.thrown []).2 = ([] : Store) :=
  (C4_write_discipline { code := none, state := some "u1", error := none }
    ExchangeResult.thrown []).2 400 "Missing authorization code" (by decide)

/-- C5: the Callback Receiver checks its inputs in a fixed order — provider
`error` first (responding 400 with the provider's error text without
consulting the exchange at all), then missing `code` (400), then missing
`state` (400); past validation an exchange error or an empty returned session
gives a 400 exchange-failure response, a successful exchange gives the
redirect to the fixed success URL, and a thrown exception gives a 500
plain-text response. -/
theorem C5_response_mapping (req : CallbackRequest) (ex : ExchangeResult)
    (store : Store) :
    (truthy req.error = true →
      (∀ ex2, oauthCallback req ex2 store = oauthCallback req ex store)
      ∧ oauthCallback req ex store
          = (Response.status 400 ("OAuth error: " ++ req.error.getD ""), store))
    ∧ (truthy req.error = false → truthy req.code = false →
      oauthCallback req ex store
        = (Response.status 400 "Missing authorization code", store))
    ∧ (truthy req.error = false → truthy req.code = true →
        truthy req.state = false →
      oauthCallback req ex store
        = (Response.status 400 "Missing state parameter (Discord user ID)", store))
    ∧ (truthy req.error = false → truthy req.code = true →
        truthy req.state = true →
      (∀ msg, ex = ExchangeResult.exErr msg →
        oauthCallback req ex store
          = (Response.status 400 ("Failed to exchange code: " ++ msg), store))
      ∧ (ex = ExchangeResult.noSession →
        oauthCallback req ex store
          = (Response.status 400 "No session returned from authentication", store))
      ∧ (∀ sess uid, ex = ExchangeResult.ok sess uid →
        (oauthCallback req ex store).1 = Response.redirect successUrl)
      ∧ (ex = ExchangeResult.thrown →
        oauthCallback req ex store
          = (Response.status 500 "Internal server error", store))) := by
  refine ⟨?_, ?_, ?_, ?_⟩
  · intro herr
    exact ⟨fun ex2 => by simp [oauthCallback, herr], by simp [oauthCallback, herr]⟩
  · intro herr hcode
    simp [oauthCallback, herr, hcode]
  · intro herr hcode hstate
    simp [oauthCallback, herr, hcode, hstate]
  · intro herr hcode hstate
    refine ⟨?_, ?_, ?_, ?_⟩
    · rintro msg rfl
      simp [oauthCallback, herr, hcode, hstate]
    · rintro rfl
      simp [oauthCallback, herr, hcode, hstate]
    · rintro sess uid rfl
      simp [oauthCallback, herr, hcode, hstate]
    · rintro rfl
      simp [oauthCallback, herr, hcode, hstate]

/-- Witness instantiating the provider-error branch of `C5_response_mapping`
on Scenario B: the response is 400 with the provider's error text in the
body. -/
theorem C5_witness :
    oauthCallback { code := none, state := none, error := some "access_denied" }
      ExchangeResult.thrown []
      = (Response.status 400 ("OAuth error: " ++ "access_denied"), []) :=
  ((C5_response_mapping { code := none, state := none, error := some "access_denied" }
      ExchangeResult.thrown []).1 (by decide)).2

/-- C6: `put` is a last-write-wins upsert — for a store whose keys are
unique (the invariant of a JS `Map`), `put(i, b1)` then `put(i, b2)` leaves
exactly one entry for `i`, and a `get(i)` performed while `b2` is not yet
expired returns `b2`. -/
theorem C6_last_write_wins (s : Store) (i : String) (b1 b2 : SessionData)
    (now : Nat) (hnd : goodStore s) :
    countKey (setSession (setSession s i b1) i b2) i = 1
    ∧ (¬ now > b2.expiresAt →
      (getSession now (setSession (setSession s i b1) i b2) i).1 = some b2) := by
  constructor
  · exact countKey_mapSet_self _ i b2 (goodStore_mapSet s i b1 hnd)
  · intro hexp
    simp [getSession, setSession, mapGet_mapSet_self, hexp]

/-- Witness instantiating `C6_last_write_wins` on the empty store. -/
theorem C6_witness :
    countKey (setSession (setSession [] "u1" sampleBundle) "u1" sampleBundle2) "u1" = 1
    ∧ (getSession 500 (setSession (setSession [] "u1" sampleBundle) "u1" sampleBundle2)
        "u1").1 = some sampleBundle2 :=
  ⟨(C6_last_write_wins [] "u1" sampleBundle sampleBundle2 500 (by simp [goodStore])).1,
   (C6_last_write_wins [] "u1" sampleBundle sampleBundle2 500
     (by simp [goodStore])).2 (by decide)⟩

/-- C7: for an identity with no Session Store entry, `getSupabaseForUser`
returns absent; when the store holds an unexpired bundle for the identity, it
returns a client whose `Authorization` header carries the bundle's access
token as a bearer credential. -/
theorem C7_scoped_client (store : Store) (i : String) (b : SessionData)
    (now : Nat) :
    (mapGet store i = none → (getSupabaseForUser now store i).1 = none)
    ∧ (mapGet store i = some b → ¬ now > b.expiresAt →
      (getSupabaseForUser now store i).1
        = some { authorizationHeader := "Bearer " ++ b.accessToken }) := by
  constructor
  · intro h
    simp [getSupabaseForUser, getSession, h]
  · intro h hexp
    simp [getSupabaseForUser, getSession, createUserClient, h, hexp]

/-- Witness instantiating `C7_scoped_client` on a one-entry store read before
expiry. -/
theorem C7_witness :
    (getSupabaseForUser 500 [("u1", sampleBundle)] "u1").1
      = some { authorizationHeader := "Bearer " ++ "t1" } :=
  (C7_scoped_client [("u1", sampleBundle)] "u1" sampleBundle 500).2
    (by decide) (by decide)

/-- C8: the login command handler writes no local state — the Session Store
passed through it is returned unchanged on every outcome; on failure
(`error || !data.url`) it replies with the generic failure embed, and on
success it replies with the link embed carrying the generated URL. -/
theorem C8_login_no_local_state (res : SignInResult) (store : Store) :
    (loginCommand res store).2 = store
    ∧ (res.hasError = true ∨ truthy res.url = false →
      (loginCommand res store).1 = LoginReply.failureEmbed)
    ∧ (res.hasError = false → truthy res.url = true →
      (loginCommand res store).1 = LoginReply.linkEmbed (res.url.getD "")) := by
  refine ⟨?_, ?_, ?_⟩
  · unfold loginCommand
    split <;> rfl
  · rintro (h | h) <;> simp [loginCommand, h]
  · intro h1 h2
    simp [loginCommand, h1, h2]

/-- Witness instantiating `C8_login_no_local_state` on a failed URL
generation over a non-empty store. -/
theorem C8_witness :
    (loginCommand { hasError := true, url := none } [("u1", sampleBundle)]).2
        = [("u1", sampleBundle)]
    ∧ (loginCommand { hasError := true, url := none } [("u1", sampleBundle)]).1
        = LoginReply.failureEmbed :=
  ⟨(C8_login_no_local_state { hasError := true, url := none }
      [("u1", sampleBundle)]).1,
   (C8_login_no_local_state { hasError := true, url := none }
      [("u1", sampleBundle)]).2.1 (Or.inl rfl)⟩

/-- C9: the expiry comparison of `getSession` is strict (`now > expiresAt`),
so a read performed exactly at the stored expiry millisecond still returns
the bundle and leaves the store untouched; eviction begins only strictly
after the expiry instant. -/
theorem C9_expiry_boundary (m : Store) (i : String) (b : SessionData)
    (h : mapGet m i = some b) :
    getSession b.expiresAt m i = (some b, m) := by
  simp [getSession, h]

/-- Witness instantiating `C9_expiry_boundary`: a bundle expiring at 1000
read exactly at 1000 is still returned. -/
theorem C9_witness :
    getSession sampleBundle.expiresAt [("u1", sampleBundle)] "u1"
      = (some sampleBundle, [("u1", sampleBundle)]) :=
  C9_expiry_boundary [("u1", sampleBundle)] "u1" sampleBundle (by decide)

/-- C10: per-key frame property — for distinct identities `j ≠ i`, a
`setSession` on `i`, a `getSession` on `i` (including its lazy eviction), and
a `deleteSession` on `i` all leave the entry (or absence of entry) for `j`
unchanged. -/
theorem C10_per_key_frame (m : Store) (i j : String) (b : SessionData)
    (now : Nat) (hij : j ≠ i) :
    mapGet (setSession m i b) j = mapGet m j
    ∧ mapGet ((getSession now m i).2) j = mapGet m j
    ∧ mapGet (deleteSession m i) j = mapGet m j := by
  refine ⟨mapGet_mapSet_ne m i j b hij, ?_, mapGet_mapDelete_ne m i j hij⟩
  unfold getSession
  cases h : mapGet m i with
  | none => rfl
  | some session =>
    by_cases hexp : now > session.expiresAt
    · simp [hexp, mapGet_mapDelete_ne m i j hij]
    · simp [hexp]

/-- Witness instantiating `C10_per_key_frame`: operations on `"u1"` leave the
entry for `"u2"` untouched. -/
theorem C10_witness :
    mapGet (setSession [("u2", sampleBundle)] "u1" sampleBundle2) "u2"
        = mapGet [("u2", sampleBundle)] "u2"
    ∧ mapGet ((getSession 500 [("u2", sampleBundle)] "u1").2) "u2"
        = mapGet [("u2", sampleBundle)] "u2"
    ∧ mapGet (deleteSession [("u2", sampleBundle)] "u1") "u2"
        = mapGet [("u2", sampleBundle)] "u2" :=
  C10_per_key_frame [("u2", sampleBundle)] "u1" "u2" sampleBundle2 500 (by decide)
